import Mathlib

/-!
Shallow embedding of the tool-augmented generation core of the RAG chatbot
backend: the generation loop of `backend/ai_generator.py` and the tool /
registry layer of `backend/search_tools.py`, together with theorems checking
the natural-language specification against this embedding.

Conventions of the embedding:
* Python `Optional` values (and absent dictionary keys) become `Option`.
* Python truthiness tests (`if x:`) are embedded explicitly via `pyTruthy...`
  helpers, because `None`, `""`, `0` and `[]` are all falsy.
* A raised Python exception is an `Except.error`; a normal return is
  `Except.ok`.
* The external collaborators (the vector store backend and the language-model
  completion service) are parameters: a `VectorStore` is a record of response
  functions, and the model service is a function from the index of the outbound
  call to the `ModelResponse` it returns, so theorems quantify over every
  possible sequence of backend answers.
* Apostrophes inside string literals are written with the escape `\x27`.
-/

namespace Rag

/-- Python truthiness of an optional string: `None` and `""` are falsy. -/
def pyTruthyStrOpt : Option String → Bool
  | none => false
  | some s => !s.isEmpty

/-- Python truthiness of an optional integer: `None` and `0` are falsy. -/
def pyTruthyIntOpt : Option Int → Bool
  | none => false
  | some n => n != 0

/-- A citation record, `models.Source`: `{title: str, url: Optional[str]}`. -/
structure Source where
  title : String
  url : Option String
deriving DecidableEq, Repr

/-- The metadata mapping stored with one search chunk; `_format_results` reads
the keys `course_title` (defaulting to `"unknown"`) and `lesson_number`.
`none` models an absent key. -/
structure ChunkMeta where
  course_title : Option String
  lesson_number : Option Int
deriving DecidableEq, Repr

/-- `vector_store.SearchResults`: documents, their metadata, optional error. -/
structure SearchResults where
  documents : List String
  metadata : List ChunkMeta
  error : Option String
deriving DecidableEq, Repr

/-- Modelled from the spec: `SearchResults.is_empty` is defined in
`vector_store.py`, which is not part of the provided sources. Per the spec
(§4.2, §6) a result set is empty when the backend returned no documents. -/
def SearchResults.is_empty (r : SearchResults) : Bool :=
  r.documents.isEmpty

/-- One lesson dictionary as decoded from the stored `lessons_json`; the
formatter reads `lesson_number` (default `"?"`) and `lesson_title`
(default `"Untitled"`). `none` models an absent key. -/
structure LessonDict where
  lesson_number : Option Int
  lesson_title : Option String
deriving DecidableEq, Repr

/-- The stored serialized lesson list. `json.loads` is Python's standard
library, external to this repository, so the stored string is modelled by what
it decodes to: `decoded ls` is a string that parses to the lesson list `ls`,
`malformed` is a string that raises `json.JSONDecodeError`. -/
inductive LessonsJson where
  | decoded (lessons : List LessonDict)
  | malformed
deriving DecidableEq, Repr

/-- The course-catalog metadata mapping read by `CourseOutlineTool.execute`:
keys `title`, `course_link` and `lessons_json`. `none` models an absent key
(whose defaults are the resolved title, `None` and `"[]"` respectively). -/
structure CourseMetadata where
  title : Option String
  course_link : Option String
  lessons_json : Option LessonsJson
deriving DecidableEq, Repr

/-- The search backend interface consumed by the tools (spec §6): unified
filtered search, lesson-link lookup, fuzzy course-name resolution, and the
course-catalog metadata fetch. `catalog_get c = .error e` models
`course_catalog.get` raising an exception with message `e`;
`.ok none` models a falsy result or falsy/missing first metadata entry;
`.ok (some m)` models `results["metadatas"][0] = m`. -/
structure VectorStore where
  search : String → Option String → Option Int → SearchResults
  get_lesson_link : String → Int → Option String
  resolve_course_name : String → Option String
  catalog_get : String → Except String (Option CourseMetadata)

/-! ### CourseSearchTool -/

/-- `search_tools.CourseSearchTool`: the store plus the retained source list
(`self.last_sources`, initialised to `[]`). -/
structure CourseSearchTool where
  store : VectorStore
  last_sources : List Source

/-- The source title derived for one chunk in `_format_results`:
the course title, with `" - Lesson <n>"` appended when the chunk carries a
lesson number. -/
def sourceTitleOf (meta : ChunkMeta) : String :=
  let course_title := meta.course_title.getD "unknown"
  match meta.lesson_number with
  | some n => course_title ++ " - Lesson " ++ toString n
  | none => course_title

/-- The bracketed context header built for one chunk in `_format_results`. -/
def headerOf (meta : ChunkMeta) : String :=
  "[" ++ sourceTitleOf meta ++ "]"

/-- The `for doc, meta in zip(results.documents, results.metadata)` loop of
`CourseSearchTool._format_results`, carrying the `seen_titles` set (as a list)
and returning the formatted chunk texts, the rebuilt source list, and — as
instrumentation only — the list of `(course_title, lesson_number)` arguments
of every `store.get_lesson_link` call the loop makes, in call order. -/
def formatLoop (store : VectorStore) :
    List (String × ChunkMeta) → List String →
    List String × List Source × List (String × Int)
  | [], _ => ([], [], [])
  | (doc, meta) :: rest, seen_titles =>
    let course_title := meta.course_title.getD "unknown"
    let source_title := sourceTitleOf meta
    if source_title ∈ seen_titles then
      let r := formatLoop store rest seen_titles
      ((headerOf meta ++ "\n" ++ doc) :: r.1, r.2)
    else
      let lesson_link : Option String :=
        match meta.lesson_number with
        | some n => store.get_lesson_link course_title n
        | none => none
      let calls : List (String × Int) :=
        match meta.lesson_number with
        | some n => [(course_title, n)]
        | none => []
      let r := formatLoop store rest (source_title :: seen_titles)
      ((headerOf meta ++ "\n" ++ doc) :: r.1,
       ⟨source_title, lesson_link⟩ :: r.2.1,
       calls ++ r.2.2)

/-- `CourseSearchTool._format_results`: formats the chunks, overwrites
`last_sources` with the deduplicated source list, and (instrumentation)
reports the `get_lesson_link` calls made. -/
def CourseSearchTool.format_results (t : CourseSearchTool)
    (results : SearchResults) :
    String × CourseSearchTool × List (String × Int) :=
  let r := formatLoop t.store (results.documents.zip results.metadata) []
  (String.intercalate "\n\n" r.1,
   { t with last_sources := r.2.1 },
   r.2.2)

/-- `CourseSearchTool.execute`: backend search, then the error / empty /
format triage. Returns the result text and the updated tool state. -/
def CourseSearchTool.execute (t : CourseSearchTool) (query : String)
    (course_name : Option String) (lesson_number : Option Int) :
    String × CourseSearchTool :=
  let results := t.store.search query course_name lesson_number
  if pyTruthyStrOpt results.error then
    (results.error.getD "", t)
  else if results.is_empty then
    let filter_info :=
      (if pyTruthyStrOpt course_name then
        " in course \x27" ++ course_name.getD "" ++ "\x27"
      else "") ++
      (if pyTruthyIntOpt lesson_number then
        " in lesson " ++ toString (lesson_number.getD 0)
      else "")
    ("No relevant content found" ++ filter_info ++ ".", t)
  else
    let r := t.format_results results
    (r.1, r.2.1)

/-! ### CourseOutlineTool -/

/-- `search_tools.CourseOutlineTool`: the store plus `self.last_sources`. -/
structure CourseOutlineTool where
  store : VectorStore
  last_sources : List Source

/-- `CourseOutlineTool._format_outline`: builds the display lines and sets
`last_sources` to the single course citation. -/
def CourseOutlineTool.format_outline (t : CourseOutlineTool) (title : String)
    (course_link : Option String) (lessons : List LessonDict) :
    String × CourseOutlineTool :=
  let lines := ["**" ++ title ++ "**"]
  let lines :=
    if pyTruthyStrOpt course_link then
      lines ++ ["Course Link: " ++ course_link.getD ""]
    else lines
  let lines := lines ++ [""]
  let lines :=
    if lessons.isEmpty then
      lines ++ ["This course has no lessons listed."]
    else
      (lines ++ ["**Lessons (" ++ toString lessons.length ++ " total):**"])
        ++ lessons.map (fun lesson =>
          let numTxt :=
            match lesson.lesson_number with
            | some n => toString n
            | none => "?"
          "  " ++ numTxt ++ ". " ++ lesson.lesson_title.getD "Untitled")
  (String.intercalate "\n" lines,
   { t with last_sources := [⟨title, course_link⟩] })

/-- `CourseOutlineTool.execute`: fuzzy resolution, catalog fetch (with its
exception and missing-metadata triage), `lessons_json` decoding that degrades
to `[]` on malformed data, then formatting. -/
def CourseOutlineTool.execute (t : CourseOutlineTool) (course_title : String) :
    String × CourseOutlineTool :=
  let resolved := t.store.resolve_course_name course_title
  if !pyTruthyStrOpt resolved then
    ("No course found matching \x27" ++ course_title ++
      "\x27. Please try a different course name.", t)
  else
    let resolved_title := resolved.getD ""
    match t.store.catalog_get resolved_title with
    | .error e => ("Error retrieving course data: " ++ e, t)
    | .ok none =>
      ("Course \x27" ++ resolved_title ++ "\x27 found but metadata unavailable.",
       t)
    | .ok (some metadata) =>
      let title := metadata.title.getD resolved_title
      let course_link := metadata.course_link
      let lessons :=
        match metadata.lessons_json.getD (.decoded []) with
        | .decoded ls => ls
        | .malformed => []
      t.format_outline title course_link lessons

/-! ### ToolManager (the registry) -/

/-- An Anthropic tool definition as far as the registry inspects it:
`register_tool` reads `definition.get("name")` (`none` models an absent key)
and the rest of the definition is opaque payload. -/
structure ToolDef where
  name : Option String
  payload : String
deriving DecidableEq, Repr

/-- A registered tool as the registry sees it: its definition and its
`execute(**kwargs)` method. `run kwargs = .error e` models the execution
raising an exception `e`; the registry does not catch it. -/
structure RegisteredTool where
  definition : ToolDef
  run : List (String × String) → Except String String

/-- Insertion-ordered dictionary write, `self.tools[tool_name] = tool`:
replace in place when the key exists, append otherwise. -/
def dictSet (d : List (String × RegisteredTool)) (k : String)
    (v : RegisteredTool) : List (String × RegisteredTool) :=
  if d.any (fun p => p.1 == k) then
    d.map (fun p => if p.1 == k then (k, v) else p)
  else
    d ++ [(k, v)]

/-- Dictionary lookup by key. -/
def dictLookup (d : List (String × RegisteredTool)) (k : String) :
    Option RegisteredTool :=
  (d.find? (fun p => p.1 == k)).map (fun p => p.2)

/-- `search_tools.ToolManager`: the insertion-ordered `self.tools` dict. -/
structure ToolManager where
  tools : List (String × RegisteredTool)

/-- `ToolManager.register_tool`: raises `ValueError` when the definition has a
falsy (absent or empty) name, otherwise writes the tool under its name. -/
def ToolManager.register_tool (tm : ToolManager) (tool : RegisteredTool) :
    Except String ToolManager :=
  let tool_name := tool.definition.name
  if !pyTruthyStrOpt tool_name then
    .error "Tool must have a \x27name\x27 in its definition"
  else
    .ok { tools := dictSet tm.tools (tool_name.getD "") tool }

/-- `ToolManager.get_tool_definitions`: all definitions in insertion order. -/
def ToolManager.get_tool_definitions (tm : ToolManager) : List ToolDef :=
  tm.tools.map (fun p => p.2.definition)

/-- `ToolManager.execute_tool`: unknown names yield the sentinel
`"Tool '<name>' not found"` text (never an exception); otherwise the tool
runs, and anything it raises propagates. -/
def ToolManager.execute_tool (tm : ToolManager) (tool_name : String)
    (kwargs : List (String × String)) : Except String String :=
  match dictLookup tm.tools tool_name with
  | none => .ok ("Tool \x27" ++ tool_name ++ "\x27 not found")
  | some tool => tool.run kwargs

/-! ### Spec-side definitions (refinement targets, written from the spec's
words, to be compared with the embedded code) -/

/-- Written from the spec (amended C3): keep the first occurrence of each
distinct derived source title, carrying the set of titles already seen. -/
def specFirstSeenAux : List ChunkMeta → List String → List ChunkMeta
  | [], _ => []
  | m :: rest, seen =>
    if sourceTitleOf m ∈ seen then specFirstSeenAux rest seen
    else m :: specFirstSeenAux rest (sourceTitleOf m :: seen)

/-- Written from the spec (amended C3): the first-seen representative chunk
metadata of each distinct derived source title, in first-seen order. -/
def specFirstSeenByTitle (metas : List ChunkMeta) : List ChunkMeta :=
  specFirstSeenAux metas []

/-- Written from the spec (amended C3): the Source entry a representative
chunk contributes — its derived title, and the backend-resolved lesson link
when the chunk has a lesson number. -/
def specSourceOf (store : VectorStore) (m : ChunkMeta) : Source :=
  ⟨sourceTitleOf m,
   match m.lesson_number with
   | some n => store.get_lesson_link (m.course_title.getD "unknown") n
   | none => none⟩

/-- Written from the spec (amended C3): the single `get_lesson_link` call a
representative chunk triggers (none when it has no lesson number). -/
def specLinkCallsOf (m : ChunkMeta) : List (String × Int) :=
  match m.lesson_number with
  | some n => [(m.course_title.getD "unknown", n)]
  | none => []

/-! ### Concrete backend instances used by witnesses and counterexamples -/

/-- A backend that finds nothing and reports no error. -/
def emptyStore : VectorStore :=
  ⟨fun _ _ _ => ⟨[], [], none⟩, fun _ _ => none, fun _ => none,
   fun _ => .ok none⟩

/-- A backend whose search reports an error string. -/
def errorStore : VectorStore :=
  ⟨fun _ _ _ => ⟨[], [], some "Search error"⟩, fun _ _ => none, fun _ => none,
   fun _ => .ok none⟩

/-- A backend whose lesson links are `"<course>/lesson/<n>"`. -/
def linkStore : VectorStore :=
  ⟨fun _ _ _ => ⟨[], [], none⟩, fun c n => some (c ++ "/lesson/" ++ toString n),
   fun _ => none, fun _ => .ok none⟩

/-- The stored metadata of the outline end-to-end example. -/
def introMeta : CourseMetadata :=
  ⟨some "Intro to X", some "http://x", some (.decoded [⟨some 1, some "Basics"⟩])⟩

/-- A backend that resolves `"Intro"` to the course `"Intro to X"` and serves
`introMeta` for it. -/
def introStore : VectorStore :=
  ⟨fun _ _ _ => ⟨[], [], none⟩, fun _ _ => none,
   fun s => if s == "Intro" then some "Intro to X" else none,
   fun s => if s == "Intro to X" then .ok (some introMeta) else .ok none⟩

/-- The three-chunk search-result list of the deduplication example: two
chunks from (CourseA, Lesson 1) and one from (CourseA, Lesson 2). -/
def dedupExampleResults : SearchResults :=
  ⟨["chunk one", "chunk two", "chunk three"],
   [⟨some "CourseA", some 1⟩, ⟨some "CourseA", some 1⟩,
    ⟨some "CourseA", some 2⟩],
   none⟩

/-- A two-chunk search-result list on which dedup by derived title conflates
two distinct (course, lesson) pairs: a course literally titled
`"A - Lesson 1"` with no lesson number, and course `"A"` lesson 1. -/
def collidingResults : SearchResults :=
  ⟨["doc one", "doc two"],
   [⟨some "A - Lesson 1", none⟩, ⟨some "A", some 1⟩],
   none⟩

/-! ### String containment helper -/

/-- `charsContain pat l` decides whether `pat` occurs as a contiguous run
inside `l`. -/
def charsContain (pat : List Char) : List Char → Bool
  | [] => pat.isEmpty
  | c :: rest => pat.isPrefixOf (c :: rest) || charsContain pat rest

/-- `strContains s pat` decides whether `pat` occurs as a substring of `s`. -/
def strContains (s pat : String) : Bool :=
  charsContain pat.data s.data

/-- `strStartsWith s pat` decides whether `s` starts with `pat`. -/
def strStartsWith (s pat : String) : Bool :=
  pat.data.isPrefixOf s.data

/-! ### AIGenerator (the generation engine) -/

/-- One `tool_use` content block of a model response: call id, tool name,
and the argument mapping. -/
structure ToolUseBlock where
  id : String
  name : String
  input : List (String × String)
deriving DecidableEq, Repr

/-- One content block of a model response, tagged `text` or `tool_use`. -/
inductive ContentBlock where
  | text (t : String)
  | tool_use (b : ToolUseBlock)
deriving DecidableEq, Repr

/-- A model-service response: its stop reason and content blocks. -/
structure ModelResponse where
  stop_reason : String
  content : List ContentBlock
deriving DecidableEq, Repr

/-- One `{"type": "tool_result", ...}` entry of a combined tool-result
message. -/
structure ToolResultBlock where
  tool_use_id : String
  content : String
deriving DecidableEq, Repr

/-- The content of one conversation message: the plain user query, an
assistant response's content blocks, or a combined tool-result list. -/
inductive MessageContent where
  | text (s : String)
  | blocks (bs : List ContentBlock)
  | tool_results (rs : List ToolResultBlock)
deriving DecidableEq, Repr

/-- One conversation message: role plus content. -/
structure Message where
  role : String
  content : MessageContent
deriving DecidableEq, Repr

/-- The parameters of one outbound `client.messages.create` call.
`tools = none` models the `"tools"` key being absent from the params;
`tool_choice_auto` records whether `"tool_choice": {"type": "auto"}` was
passed. -/
structure ApiParams where
  model : String
  temperature : Nat
  max_tokens : Nat
  messages : List Message
  system : String
  tools : Option (List ToolDef)
  tool_choice_auto : Bool
deriving DecidableEq, Repr

/-- A Python runtime error escaping `generate_response` uncaught. -/
inductive PyError where
  | indexError (msg : String)
  | attributeError (msg : String)
deriving DecidableEq, Repr

/-- `AIGenerator.MAX_TOOL_ROUNDS`: the round ceiling. -/
def MAX_TOOL_ROUNDS : Nat := 2

/-- `AIGenerator.SYSTEM_PROMPT` (the static instructional preamble). -/
def SYSTEM_PROMPT : String :=
" You are an AI assistant specialized in course materials and educational content with access to tools for searching and exploring course information.

Available Tools:
1. **search_course_content** - Search within course materials for specific information, concepts, or topics
2. **get_course_outline** - Get the complete structure of a course including all lesson titles

Tool Selection Guidelines:
- Use **get_course_outline** when users ask about:
  - Course structure or overview
  - What lessons are in a course
  - List of topics covered in a course
  - Course table of contents

- Use **search_course_content** when users ask about:
  - Specific concepts, definitions, or explanations
  - Detailed information from lesson content
  - Questions that require searching through course text

- **Sequential tool calls**: You may make up to 2 tool calls per query if needed. After reviewing results from your first tool call, you can make a second call if additional information is required.
- **When to use multiple calls**: Use a second tool call when the first search did not return sufficient information, you need to search a different course/lesson, or you need both outline and content details.
- **Efficiency**: If the first tool call provides a complete answer, respond directly without additional calls.
- If a tool yields no results, state this clearly without offering alternatives

Response Protocol:
- **General knowledge questions**: Answer using existing knowledge without tools
- **Course-specific questions**: Use appropriate tool first, then answer
- **No meta-commentary**:
  - Provide direct answers only - no reasoning process, search explanations, or question-type analysis
  - Do not mention \"based on the search results\" or \"based on the outline\"

All responses must be:
1. **Brief, Concise and focused** - Get to the point quickly
2. **Educational** - Maintain instructional value
3. **Clear** - Use accessible language
4. **Example-supported** - Include relevant examples when they aid understanding
Provide only the direct answer to what was asked.
"

/-- The generation engine: holds the configured model id (the api key and the
HTTP client are connection plumbing with no observable effect here). -/
structure AIGenerator where
  model : String

/-- `AIGenerator._extract_text_response`: first `text` block, else `""`. -/
def extract_text_response : List ContentBlock → String
  | [] => ""
  | .text t :: _ => t
  | .tool_use _ :: rest => extract_text_response rest

/-- The `execute_tool` interface of the tool manager as the generation loop
uses it; `.error e` models the execution raising an exception `e`. -/
def ExecuteTool : Type :=
  String → List (String × String) → Except String String

/-- One round's tool dispatch: every `tool_use` block of the assistant
response is executed in emission order, each raised exception is caught and
replaced by the `"Tool execution failed: <message>"` text. -/
def buildToolResults (execute_tool : ExecuteTool)
    (content : List ContentBlock) : List ToolResultBlock :=
  content.filterMap fun b =>
    match b with
    | .tool_use tb =>
      some ⟨tb.id,
        match execute_tool tb.name tb.input with
        | .ok r => r
        | .error e => "Tool execution failed: " ++ e⟩
    | .text _ => none

/-- The `while rounds_completed < MAX_TOOL_ROUNDS` loop of
`AIGenerator._handle_tool_execution`, as structural recursion on
`fuel = MAX_TOOL_ROUNDS - rounds_completed`. `service` is the stubbed
model-completion service and `call_idx` numbers its responses (the next
outbound call consumes `service call_idx`); the function returns the params
of every model call it issues, in order, and the final answer text. When fuel
runs out the final call is issued with the `"tools"` key absent. -/
def toolLoop (g : AIGenerator) (service : Nat → ModelResponse)
    (execute_tool : ExecuteTool) (system : String)
    (base_tools : Option (List ToolDef)) :
    Nat → Nat → List Message → ModelResponse → List ApiParams × String
  | 0, call_idx, messages, _ =>
    let final_params : ApiParams :=
      { model := g.model, temperature := 0, max_tokens := 800,
        messages := messages, system := system,
        tools := none, tool_choice_auto := false }
    let final_response := service call_idx
    ([final_params], extract_text_response final_response.content)
  | fuel + 1, call_idx, messages, current_response =>
    let messages := messages ++ [⟨"assistant", .blocks current_response.content⟩]
    let tool_results := buildToolResults execute_tool current_response.content
    let messages :=
      if tool_results.isEmpty then messages
      else messages ++ [⟨"user", .tool_results tool_results⟩]
    let next_params : ApiParams :=
      { model := g.model, temperature := 0, max_tokens := 800,
        messages := messages, system := system,
        tools := some (base_tools.getD []), tool_choice_auto := true }
    let next_response := service call_idx
    if next_response.stop_reason != "tool_use" then
      ([next_params], extract_text_response next_response.content)
    else
      let r := toolLoop g service execute_tool system base_tools
        fuel (call_idx + 1) messages next_response
      (next_params :: r.1, r.2)

/-- `AIGenerator._handle_tool_execution`: runs the round loop starting from
the initial tool-requesting response, with `rounds_completed = 0` and the
base params' message list; `first_call_idx` numbers the stubbed service's
next response. -/
def AIGenerator.handle_tool_execution (g : AIGenerator)
    (service : Nat → ModelResponse) (execute_tool : ExecuteTool)
    (initial_response : ModelResponse) (base_params : ApiParams)
    (first_call_idx : Nat) : List ApiParams × String :=
  toolLoop g service execute_tool base_params.system base_params.tools
    MAX_TOOL_ROUNDS first_call_idx base_params.messages initial_response

/-- The direct (no tool loop) return path of `generate_response`:
`response.content[0].text`, which raises `IndexError` on empty content and
`AttributeError` when the first block is not a text block. -/
def directReturn (response : ModelResponse) : Except PyError String :=
  match response.content with
  | [] => .error (.indexError "list index out of range")
  | .text t :: _ => .ok t
  | .tool_use _ :: _ =>
    .error (.attributeError "tool_use block has no attribute text")

/-- `AIGenerator.generate_response`. `tool_manager = none` models passing
`tool_manager=None` (falsy); `tools = none` models `tools=None` and
`some []` an empty (falsy) tool list. Returns the params of every
model-service call issued, in order, and either the answer string or the
uncaught Python error. -/
def AIGenerator.generate_response (g : AIGenerator)
    (service : Nat → ModelResponse) (query : String)
    (conversation_history : Option String) (tools : Option (List ToolDef))
    (tool_manager : Option ExecuteTool) :
    List ApiParams × Except PyError String :=
  let system_content :=
    if pyTruthyStrOpt conversation_history then
      SYSTEM_PROMPT ++ "\n\nPrevious conversation:\n" ++
        conversation_history.getD ""
    else SYSTEM_PROMPT
  let tools_truthy :=
    match tools with
    | some ts => !ts.isEmpty
    | none => false
  let api_params : ApiParams :=
    { model := g.model, temperature := 0, max_tokens := 800,
      messages := [⟨"user", .text query⟩], system := system_content,
      tools := if tools_truthy then tools else none,
      tool_choice_auto := tools_truthy }
  let response := service 0
  match tool_manager with
  | some execute_tool =>
    if response.stop_reason == "tool_use" then
      let r := g.handle_tool_execution service execute_tool response api_params 1
      (api_params :: r.1, .ok r.2)
    else
      ([api_params], directReturn response)
  | none => ([api_params], directReturn response)

/-- Written from the spec: "scan the response's content blocks and return the
first textual block", as an `Option`. -/
def specFirstText (bs : List ContentBlock) : Option String :=
  (bs.filterMap fun b =>
    match b with
    | .text t => some t
    | .tool_use _ => none).head?

/-- A registered tool named `search_course_content`, first version. -/
def searchToolV1 : RegisteredTool :=
  ⟨⟨some "search_course_content", "definition one"⟩,
   fun _ => .ok "result one"⟩

/-- A registered tool with the same name and a different definition. -/
def searchToolV2 : RegisteredTool :=
  ⟨⟨some "search_course_content", "definition two"⟩,
   fun _ => .ok "result two"⟩

/-- A model response that requests one tool call. -/
def constToolResponse : ModelResponse :=
  ⟨"tool_use",
   [.tool_use ⟨"toolu_1", "search_course_content", [("query", "mcp")]⟩]⟩

/-- A stubbed model service that requests a tool on every call. -/
def constToolService : Nat → ModelResponse :=
  fun _ => constToolResponse

/-! ## Theorems -/

theorem charsContain_cons_of (pat : List Char) (c : Char) (l : List Char)
    (h : charsContain pat l = true) : charsContain pat (c :: l) = true := by
  simp only [charsContain, Bool.or_eq_true]
  exact Or.inr h

theorem charsContain_append_of (pat l₂ : List Char) (l₁ : List Char)
    (h : charsContain pat l₂ = true) :
    charsContain pat (l₁ ++ l₂) = true := by
  induction l₁ with
  | nil => simpa using h
  | cons c rest ih => exact charsContain_cons_of _ _ _ ih

theorem strContains_append_right (s t pat : String)
    (h : strContains t pat = true) : strContains (s ++ t) pat = true := by
  unfold strContains at *
  rw [String.data_append]
  exact charsContain_append_of _ _ _ h

theorem strStartsWith_append (p t : String) :
    strStartsWith (p ++ t) p = true := by
  unfold strStartsWith
  rw [String.data_append]
  simp [List.isPrefixOf_iff_prefix]

/-- C6: when the backend reports no documents and no error,
`CourseSearchTool.execute "quantum foo" (course_name := "Physics")` returns
exactly the empty-result message echoing the course filter that was applied. -/
theorem C6_empty_search_message (store : VectorStore) (prior : List Source)
    (hdocs : (store.search "quantum foo" (some "Physics") none).documents = [])
    (herr : (store.search "quantum foo" (some "Physics") none).error = none) :
    ((⟨store, prior⟩ : CourseSearchTool).execute "quantum foo" (some "Physics")
        none).1 =
      "No relevant content found in course \x27Physics\x27." := by
  simp only [CourseSearchTool.execute, SearchResults.is_empty, herr, hdocs]
  rfl

theorem C6_empty_search_message_witness :
    ((⟨emptyStore, []⟩ : CourseSearchTool).execute "quantum foo" (some "Physics")
        none).1 =
      "No relevant content found in course \x27Physics\x27." :=
  C6_empty_search_message emptyStore [] rfl rfl

/-- C10: the empty-result filter echo of `CourseSearchTool.execute` is gated
on Python truthiness, not on the argument being non-`None`: with
`lesson_number = 0` (or `course_name = ""`) and an empty, error-free backend
answer, the message is plain `"No relevant content found."` even though the
filter was passed to the backend search. -/
theorem C10_falsy_filters_omitted (store : VectorStore) (prior : List Source)
    (q : String)
    (h0d : (store.search q none (some 0)).documents = [])
    (h0e : (store.search q none (some 0)).error = none)
    (h1d : (store.search q (some "") none).documents = [])
    (h1e : (store.search q (some "") none).error = none) :
    ((⟨store, prior⟩ : CourseSearchTool).execute q none (some 0)).1 =
      "No relevant content found." ∧
    ((⟨store, prior⟩ : CourseSearchTool).execute q (some "") none).1 =
      "No relevant content found." := by
  constructor
  · simp only [CourseSearchTool.execute, SearchResults.is_empty, h0d, h0e]
    rfl
  · simp only [CourseSearchTool.execute, SearchResults.is_empty, h1d, h1e]
    rfl

theorem C10_falsy_filters_omitted_witness :
    ((⟨emptyStore, []⟩ : CourseSearchTool).execute "quantum foo" none
        (some 0)).1 = "No relevant content found." ∧
    ((⟨emptyStore, []⟩ : CourseSearchTool).execute "quantum foo" (some "")
        none).1 = "No relevant content found." :=
  C10_falsy_filters_omitted emptyStore [] "quantum foo" rfl rfl rfl rfl

/-- C7: for every name not registered in the registry,
`ToolManager.execute_tool` returns (never raises) the sentinel text
`"Tool '<name>' not found"`, which contains `"not found"`. -/
theorem C7_unknown_tool_sentinel (tm : ToolManager) (tool_name : String)
    (kwargs : List (String × String))
    (h : dictLookup tm.tools tool_name = none) :
    tm.execute_tool tool_name kwargs =
      .ok ("Tool \x27" ++ tool_name ++ "\x27 not found") ∧
    strContains ("Tool \x27" ++ tool_name ++ "\x27 not found") "not found"
      = true := by
  constructor
  · simp [ToolManager.execute_tool, h]
  · exact strContains_append_right _ _ _ (by decide)

theorem C7_unknown_tool_sentinel_witness :
    (⟨[]⟩ : ToolManager).execute_tool "nonexistent_tool" [] =
      .ok ("Tool \x27" ++ "nonexistent_tool" ++ "\x27 not found") ∧
    strContains ("Tool \x27" ++ "nonexistent_tool" ++ "\x27 not found")
      "not found" = true :=
  C7_unknown_tool_sentinel ⟨[]⟩ "nonexistent_tool" [] rfl

/-- C8: given the stored metadata `introMeta` and a backend resolving
`"Intro"` to that course, `CourseOutlineTool.execute "Intro"` returns text
containing the course header, the course link line, the lesson-count header
and the lesson line, and sets `last_sources` to the single course citation. -/
theorem C8_outline_example (store : VectorStore) (prior : List Source)
    (hres : store.resolve_course_name "Intro" = some "Intro to X")
    (hcat : store.catalog_get "Intro to X" = .ok (some introMeta)) :
    strContains ((⟨store, prior⟩ : CourseOutlineTool).execute "Intro").1
      "**Intro to X**" = true ∧
    strContains ((⟨store, prior⟩ : CourseOutlineTool).execute "Intro").1
      "Course Link: http://x" = true ∧
    strContains ((⟨store, prior⟩ : CourseOutlineTool).execute "Intro").1
      "**Lessons (1 total):**" = true ∧
    strContains ((⟨store, prior⟩ : CourseOutlineTool).execute "Intro").1
      "1. Basics" = true ∧
    ((⟨store, prior⟩ : CourseOutlineTool).execute "Intro").2.last_sources =
      [⟨"Intro to X", some "http://x"⟩] := by
  have hout : (⟨store, prior⟩ : CourseOutlineTool).execute "Intro" =
      ("**Intro to X**\nCourse Link: http://x\n\n**Lessons (1 total):**\n  1. Basics",
       ⟨store, [⟨"Intro to X", some "http://x"⟩]⟩) := by
    simp only [CourseOutlineTool.execute, hres, Option.getD_some, hcat]
    rfl
  have hfst : ((⟨store, prior⟩ : CourseOutlineTool).execute "Intro").1 =
      "**Intro to X**\nCourse Link: http://x\n\n**Lessons (1 total):**\n  1. Basics" := by
    rw [hout]
  have hsnd : ((⟨store, prior⟩ : CourseOutlineTool).execute
      "Intro").2.last_sources = [⟨"Intro to X", some "http://x"⟩] := by
    rw [hout]
  refine ⟨?_, ?_, ?_, ?_, hsnd⟩ <;> rw [hfst] <;> decide

theorem C8_outline_example_witness :
    strContains ((⟨introStore, []⟩ : CourseOutlineTool).execute "Intro").1
      "**Intro to X**" = true ∧
    strContains ((⟨introStore, []⟩ : CourseOutlineTool).execute "Intro").1
      "Course Link: http://x" = true ∧
    strContains ((⟨introStore, []⟩ : CourseOutlineTool).execute "Intro").1
      "**Lessons (1 total):**" = true ∧
    strContains ((⟨introStore, []⟩ : CourseOutlineTool).execute "Intro").1
      "1. Basics" = true ∧
    ((⟨introStore, []⟩ : CourseOutlineTool).execute "Intro").2.last_sources =
      [⟨"Intro to X", some "http://x"⟩] :=
  C8_outline_example introStore [] rfl rfl

/-- C4 is false as stated: after an execution whose backend search reports an
error, `last_sources` still holds the list left by an earlier execution — the
early error return of `CourseSearchTool.execute` never touches it. Here the
tool retains `[⟨"stale", none⟩]` from before, the search errors, and the
retained list afterwards equals that earlier (non-empty) list instead of
reflecting the most recent search. -/
theorem C4_counterexample :
    ((⟨errorStore, [⟨"stale", none⟩]⟩ : CourseSearchTool).execute "q" none
        none).2.last_sources = [⟨"stale", none⟩] ∧
    ((⟨errorStore, [⟨"stale", none⟩]⟩ : CourseSearchTool).execute "q" none
        none).2.last_sources ≠ ([] : List Source) := by
  constructor
  · rfl
  · decide

/-- C4 amended: `CourseSearchTool.execute` overwrites `last_sources` exactly
on the formatting path — when the backend search reports no (truthy) error
and a non-empty result set, the retained list becomes the deduplicated
source list of that search; on a backend-error or empty result the earlier
list is left in place. -/
theorem C4_amended_overwrite_on_format_only (store : VectorStore)
    (prior : List Source) (q : String) (cn : Option String)
    (ln : Option Int) :
    (pyTruthyStrOpt (store.search q cn ln).error = false →
      (store.search q cn ln).is_empty = false →
      ((⟨store, prior⟩ : CourseSearchTool).execute q cn ln).2.last_sources =
        (formatLoop store
          ((store.search q cn ln).documents.zip
            (store.search q cn ln).metadata) []).2.1) ∧
    (pyTruthyStrOpt (store.search q cn ln).error = true ∨
      (store.search q cn ln).is_empty = true →
      ((⟨store, prior⟩ : CourseSearchTool).execute q cn ln).2.last_sources =
        prior) := by
  constructor
  · intro herr hemp
    simp [CourseSearchTool.execute, CourseSearchTool.format_results, herr,
      hemp]
  · intro h
    rcases h with herr | hemp
    · simp [CourseSearchTool.execute, herr]
    · by_cases herr : pyTruthyStrOpt (store.search q cn ln).error = true
      · simp [CourseSearchTool.execute, herr]
      · simp only [Bool.not_eq_true] at herr
        simp [CourseSearchTool.execute, herr, hemp]

theorem C4_amended_overwrite_on_format_only_witness :
    ((⟨errorStore, [⟨"stale", none⟩]⟩ : CourseSearchTool).execute "q" none
        none).2.last_sources = [⟨"stale", none⟩] :=
  (C4_amended_overwrite_on_format_only errorStore [⟨"stale", none⟩] "q" none
    none).2 (Or.inl rfl)

theorem formatLoop_refines_spec (store : VectorStore)
    (pairs : List (String × ChunkMeta)) (seen : List String) :
    (formatLoop store pairs seen).2.1 =
      (specFirstSeenAux (pairs.map Prod.snd) seen).map (specSourceOf store) ∧
    (formatLoop store pairs seen).2.2 =
      (specFirstSeenAux (pairs.map Prod.snd) seen).flatMap specLinkCallsOf := by
  induction pairs generalizing seen with
  | nil => simp [formatLoop, specFirstSeenAux]
  | cons pm rest ih =>
    obtain ⟨doc, meta⟩ := pm
    by_cases hmem : sourceTitleOf meta ∈ seen
    · simpa [formatLoop, specFirstSeenAux, hmem] using ih seen
    · have h := ih (sourceTitleOf meta :: seen)
      cases hl : meta.lesson_number with
      | none =>
        simp [formatLoop, specFirstSeenAux, hmem, hl, h.1, h.2, specSourceOf,
          specLinkCallsOf]
      | some n =>
        simp [formatLoop, specFirstSeenAux, hmem, hl, h.1, h.2, specSourceOf,
          specLinkCallsOf]

theorem specFirstSeenAux_titles_nodup (metas : List ChunkMeta) :
    ∀ seen : List String,
    ((specFirstSeenAux metas seen).map sourceTitleOf).Nodup ∧
    ∀ ttl ∈ (specFirstSeenAux metas seen).map sourceTitleOf, ttl ∉ seen := by
  induction metas with
  | nil => intro seen; simp [specFirstSeenAux]
  | cons m rest ih =>
    intro seen
    by_cases hmem : sourceTitleOf m ∈ seen
    · simpa [specFirstSeenAux, hmem] using ih seen
    · have h := ih (sourceTitleOf m :: seen)
      have hrw : specFirstSeenAux (m :: rest) seen =
          m :: specFirstSeenAux rest (sourceTitleOf m :: seen) := by
        simp [specFirstSeenAux, hmem]
      rw [hrw, List.map_cons, List.nodup_cons]
      constructor
      · exact ⟨fun hc => (h.2 _ hc) (List.mem_cons_self _ _), h.1⟩
      · intro ttl httl
        rcases List.mem_cons.mp httl with rfl | hin
        · exact hmem
        · exact fun hseen => (h.2 ttl hin) (List.mem_cons_of_mem _ hseen)

/-- C3 amended: `_format_results` rebuilds the retained Source list with
exactly one entry per distinct *derived source title* (the course title, with
`" - Lesson <n>"` appended when the chunk carries a lesson number), in
first-seen order, and calls the backend `get_lesson_link` exactly once per
distinct title whose representative chunk has a lesson number; in particular,
for three chunks — two from (CourseA, Lesson 1) and one from
(CourseA, Lesson 2) — the resulting Source list has exactly two entries in
first-seen order. -/
theorem C3_amended_dedup_by_title (store : VectorStore) (prior : List Source)
    (rs : SearchResults) :
    ((⟨store, prior⟩ : CourseSearchTool).format_results rs).2.1.last_sources =
      (specFirstSeenByTitle ((rs.documents.zip rs.metadata).map Prod.snd)).map
        (specSourceOf store) ∧
    ((((⟨store, prior⟩ : CourseSearchTool).format_results
        rs).2.1.last_sources).map Source.title).Nodup ∧
    ((⟨store, prior⟩ : CourseSearchTool).format_results rs).2.2 =
      (specFirstSeenByTitle
        ((rs.documents.zip rs.metadata).map Prod.snd)).flatMap
        specLinkCallsOf ∧
    ((⟨linkStore, prior⟩ : CourseSearchTool).format_results
        dedupExampleResults).2.1.last_sources =
      [⟨"CourseA - Lesson 1", some "CourseA/lesson/1"⟩,
       ⟨"CourseA - Lesson 2", some "CourseA/lesson/2"⟩] := by
  have h := formatLoop_refines_spec store (rs.documents.zip rs.metadata) []
  refine ⟨?_, ?_, ?_, ?_⟩
  · simpa [CourseSearchTool.format_results, specFirstSeenByTitle] using h.1
  · have hs : (((⟨store, prior⟩ : CourseSearchTool).format_results
        rs).2.1.last_sources).map Source.title =
        (specFirstSeenAux ((rs.documents.zip rs.metadata).map Prod.snd)
          []).map sourceTitleOf := by
      simp [CourseSearchTool.format_results, h.1, specFirstSeenByTitle,
        List.map_map, specSourceOf, Function.comp]
    rw [hs]
    exact (specFirstSeenAux_titles_nodup _ []).1
  · simpa [CourseSearchTool.format_results, specFirstSeenByTitle] using h.2
  · rfl

/-- C3 is false as stated: deduplication is keyed on the derived title
string, which conflates distinct (course, lesson) pairs. For a course
literally titled `"A - Lesson 1"` (no lesson number) together with course
`"A"` lesson 1 — two distinct (course, lesson) pairs — the rebuilt Source
list has a single entry, not one entry per distinct pair. -/
theorem C3_counterexample :
    (((⟨linkStore, []⟩ : CourseSearchTool).format_results
        collidingResults).2.1.last_sources).length = 1 ∧
    ((collidingResults.metadata.map
        (fun m => (m.course_title.getD "unknown", m.lesson_number))).eraseDups).length
      = 2 := by
  constructor
  · rfl
  · rfl

theorem find_map_replace (d : List (String × RegisteredTool)) (k : String)
    (v : RegisteredTool) (h : d.any (fun p => p.1 == k) = true) :
    (d.map (fun p => if p.1 == k then (k, v) else p)).find?
      (fun p => p.1 == k) = some (k, v) := by
  induction d with
  | nil => simp at h
  | cons p rest ih =>
    by_cases hp : (p.1 == k) = true
    · rw [List.map_cons, if_pos hp]
      exact List.find?_cons_of_pos _ (by simp)
    · have hr : rest.any (fun p => p.1 == k) = true := by
        simpa [List.any_cons, hp] using h
      rw [List.map_cons, if_neg hp]
      have hstep : List.find? (fun q => q.1 == k)
          (p :: rest.map (fun q => if q.1 == k then (k, v) else q)) =
          List.find? (fun q => q.1 == k)
            (rest.map (fun q => if q.1 == k then (k, v) else q)) :=
        List.find?_cons_of_neg _ hp
      rw [hstep]
      exact ih hr

theorem find_append_fresh (d : List (String × RegisteredTool)) (k : String)
    (v : RegisteredTool) (h : d.any (fun p => p.1 == k) = false) :
    (d ++ [(k, v)]).find? (fun p => p.1 == k) = some (k, v) := by
  induction d with
  | nil => exact List.find?_cons_of_pos _ (by simp)
  | cons p rest ih =>
    simp only [List.any_cons, Bool.or_eq_false_iff] at h
    rw [List.cons_append]
    have hstep : List.find? (fun q => q.1 == k) (p :: (rest ++ [(k, v)])) =
        List.find? (fun q => q.1 == k) (rest ++ [(k, v)]) :=
      List.find?_cons_of_neg _ (by simp [h.1])
    rw [hstep]
    exact ih h.2

theorem dictLookup_dictSet_self (d : List (String × RegisteredTool))
    (k : String) (v : RegisteredTool) :
    dictLookup (dictSet d k v) k = some v := by
  unfold dictSet dictLookup
  by_cases h : d.any (fun p => p.1 == k) = true
  · rw [if_pos h, find_map_replace d k v h]
    rfl
  · have h' : d.any (fun p => p.1 == k) = false := Bool.eq_false_iff.mpr h
    rw [if_neg (by simp [h']), find_append_fresh d k v h']
    rfl

theorem mem_dictSet {d : List (String × RegisteredTool)} {k : String}
    {v : RegisteredTool} {p : String × RegisteredTool}
    (hp : p ∈ dictSet d k v) :
    p = (k, v) ∨ (p ∈ d ∧ (p.1 == k) = false) := by
  unfold dictSet at hp
  by_cases h : d.any (fun q => q.1 == k) = true
  · rw [if_pos h] at hp
    obtain ⟨q, hq, hfq⟩ := List.mem_map.mp hp
    by_cases hqk : (q.1 == k) = true
    · left
      rw [← hfq, if_pos hqk]
    · right
      rw [← hfq, if_neg hqk]
      exact ⟨hq, by simpa using hqk⟩
  · rw [if_neg h] at hp
    rcases List.mem_append.mp hp with h1 | h2
    · right
      refine ⟨h1, ?_⟩
      by_cases hpk : (p.1 == k) = true
      · exact absurd (List.any_eq_true.mpr ⟨p, h1, hpk⟩) h
      · simpa using hpk
    · left
      simpa using h2

theorem keys_dictSet (d : List (String × RegisteredTool)) (k : String)
    (v : RegisteredTool) :
    (dictSet d k v).map Prod.fst =
      if d.any (fun p => p.1 == k) = true then d.map Prod.fst
      else d.map Prod.fst ++ [k] := by
  unfold dictSet
  by_cases h : d.any (fun p => p.1 == k) = true
  · rw [if_pos h, if_pos h, List.map_map]
    apply List.map_congr_left
    intro q _
    simp only [Function.comp_apply]
    by_cases hqk : (q.1 == k) = true
    · rw [if_pos hqk]
      exact (eq_of_beq hqk).symm
    · rw [if_neg hqk]
  · rw [if_neg h, if_neg h]
    simp

theorem keys_nodup_dictSet (d : List (String × RegisteredTool)) (k : String)
    (v : RegisteredTool) (hnd : (d.map Prod.fst).Nodup) :
    ((dictSet d k v).map Prod.fst).Nodup := by
  rw [keys_dictSet]
  by_cases h : d.any (fun p => p.1 == k) = true
  · rwa [if_pos h]
  · rw [if_neg h]
    have hk : k ∉ d.map Prod.fst := by
      intro hmem
      obtain ⟨q, hq, hfq⟩ := List.mem_map.mp hmem
      exact h (List.any_eq_true.mpr ⟨q, hq, beq_iff_eq.mpr hfq⟩)
    rw [List.nodup_append]
    refine ⟨hnd, List.nodup_singleton k, fun a ha hak => ?_⟩
    rw [List.mem_singleton] at hak
    exact hk (hak ▸ ha)

theorem filter_key_len_le_one (d : List (String × RegisteredTool))
    (k : String) (hnd : (d.map Prod.fst).Nodup) :
    (d.filter (fun p => p.1 == k)).length ≤ 1 := by
  induction d with
  | nil => simp
  | cons p rest ih =>
    rw [List.map_cons, List.nodup_cons] at hnd
    by_cases hp : (p.1 == k) = true
    · have hk := eq_of_beq hp
      have hrest : rest.filter (fun q => q.1 == k) = [] := by
        rw [List.filter_eq_nil_iff]
        intro q hq hqk
        have hq1 : q.1 = k := eq_of_beq (by simpa using hqk)
        exact hnd.1 (by
          rw [hk, ← hq1]
          exact List.mem_map_of_mem Prod.fst hq)
      simp [List.filter_cons, hp, hrest]
    · simp only [List.filter_cons, hp, if_neg]
      simpa using ih hnd.2

theorem filter_key_len_pos_of_lookup (d : List (String × RegisteredTool))
    (k : String) (v : RegisteredTool) (h : dictLookup d k = some v) :
    1 ≤ (d.filter (fun p => p.1 == k)).length := by
  unfold dictLookup at h
  cases hf : d.find? (fun p => p.1 == k) with
  | none => rw [hf] at h; simp at h
  | some p0 =>
    have hmem := List.mem_of_find?_eq_some hf
    have hpred := List.find?_some hf
    have : p0 ∈ d.filter (fun p => p.1 == k) :=
      List.mem_filter.mpr ⟨hmem, hpred⟩
    have hne : d.filter (fun p => p.1 == k) ≠ [] := by
      intro hnil
      rw [hnil] at this
      simp at this
    have := List.length_pos.mpr hne
    omega

/-- C9: registering a tool whose definition name equals the name of an
already-registered tool raises no error and silently replaces the earlier
tool: the second registration succeeds, the registry afterwards holds exactly
one tool under that name — the newly registered one — and
`get_tool_definitions` no longer contains the earlier tool's definition.
`hinv` and `hnd` are the registry invariants every reachable `ToolManager`
satisfies (tools are keyed by their definition's name, keys are unique). -/
theorem C9_register_replaces (tm : ToolManager) (t1 t2 : RegisteredTool)
    (n : String)
    (hinv : ∀ p ∈ tm.tools, p.2.definition.name = some p.1)
    (hnd : (tm.tools.map Prod.fst).Nodup)
    (h1 : t1.definition.name = some n) (h2 : t2.definition.name = some n)
    (hn : n ≠ "") (hdiff : t1.definition ≠ t2.definition) :
    tm.register_tool t1 = .ok ⟨dictSet tm.tools n t1⟩ ∧
    (⟨dictSet tm.tools n t1⟩ : ToolManager).register_tool t2 =
      .ok ⟨dictSet (dictSet tm.tools n t1) n t2⟩ ∧
    dictLookup (dictSet (dictSet tm.tools n t1) n t2) n = some t2 ∧
    ((dictSet (dictSet tm.tools n t1) n t2).filter
      (fun p => p.1 == n)).length = 1 ∧
    t1.definition ∉
      (⟨dictSet (dictSet tm.tools n t1) n t2⟩ : ToolManager).get_tool_definitions := by
  have hpt : pyTruthyStrOpt (some n) = true := by
    cases hb : n.isEmpty with
    | false => simp [pyTruthyStrOpt, hb]
    | true => exact absurd ((String.isEmpty_iff n).mp hb) hn
  refine ⟨?_, ?_, dictLookup_dictSet_self _ n t2, ?_, ?_⟩
  · simp [ToolManager.register_tool, h1, hpt]
  · simp [ToolManager.register_tool, h2, hpt]
  · have hnd2 : ((dictSet (dictSet tm.tools n t1) n t2).map Prod.fst).Nodup :=
      keys_nodup_dictSet _ n t2 (keys_nodup_dictSet _ n t1 hnd)
    have hle := filter_key_len_le_one _ n hnd2
    have hge := filter_key_len_pos_of_lookup
      (dictSet (dictSet tm.tools n t1) n t2) n t2
      (dictLookup_dictSet_self (dictSet tm.tools n t1) n t2)
    omega
  · intro hmem
    have hmem' : t1.definition ∈
        (dictSet (dictSet tm.tools n t1) n t2).map
          (fun p => p.2.definition) := hmem
    obtain ⟨p, hp, hdef⟩ := List.mem_map.mp hmem'
    rcases mem_dictSet hp with rfl | ⟨hp1, hk1⟩
    · exact hdiff hdef.symm
    · rcases mem_dictSet hp1 with rfl | ⟨hp0, hk0⟩
      · simp at hk1
      · have hname := hinv p hp0
        rw [hdef, h1] at hname
        have : p.1 = n := by
          injection hname with h
          exact h.symm
        rw [this] at hk0
        simp at hk0

theorem C9_register_replaces_witness :
    (⟨[]⟩ : ToolManager).register_tool searchToolV1 =
      .ok ⟨dictSet [] "search_course_content" searchToolV1⟩ ∧
    (⟨dictSet [] "search_course_content" searchToolV1⟩ :
        ToolManager).register_tool searchToolV2 =
      .ok ⟨dictSet (dictSet [] "search_course_content" searchToolV1)
        "search_course_content" searchToolV2⟩ ∧
    dictLookup (dictSet (dictSet [] "search_course_content" searchToolV1)
      "search_course_content" searchToolV2) "search_course_content" =
      some searchToolV2 ∧
    ((dictSet (dictSet [] "search_course_content" searchToolV1)
      "search_course_content" searchToolV2).filter
        (fun p => p.1 == "search_course_content")).length = 1 ∧
    searchToolV1.definition ∉
      (⟨dictSet (dictSet [] "search_course_content" searchToolV1)
        "search_course_content" searchToolV2⟩ :
          ToolManager).get_tool_definitions :=
  C9_register_replaces ⟨[]⟩ searchToolV1 searchToolV2 "search_course_content"
    (fun p hp => absurd hp (List.not_mem_nil p)) (by simp) rfl rfl
    (by decide) (by decide)

theorem getLast?_cons_of_length_pos {α : Type} (a : α) (l : List α)
    (h : 0 < l.length) : (a :: l).getLast? = l.getLast? := by
  cases l with
  | nil => simp at h
  | cons b bs => exact List.getLast?_cons_cons

theorem toolLoop_all_tool_use (g : AIGenerator)
    (service : Nat → ModelResponse) (execute_tool : ExecuteTool)
    (system : String) (base_tools : Option (List ToolDef))
    (h : ∀ i, (service i).stop_reason = "tool_use") :
    ∀ (fuel call_idx : Nat) (messages : List Message)
      (current : ModelResponse),
    (toolLoop g service execute_tool system base_tools fuel call_idx messages
      current).1.length = fuel + 1 ∧
    ((toolLoop g service execute_tool system base_tools fuel call_idx messages
      current).1.getLast?).map ApiParams.tools = some none ∧
    (toolLoop g service execute_tool system base_tools fuel call_idx messages
      current).2 =
      extract_text_response (service (call_idx + fuel)).content := by
  intro fuel
  induction fuel with
  | zero =>
    intro call_idx messages current
    simp [toolLoop]
  | succ fuel ih =>
    intro call_idx messages current
    have hcond : ((service call_idx).stop_reason != "tool_use") = false := by
      simp [h call_idx]
    simp only [toolLoop, hcond, Bool.false_eq_true, if_false]
    refine ⟨?_, ?_, ?_⟩
    · rw [List.length_cons, (ih _ _ _).1]
    · rw [getLast?_cons_of_length_pos _ _ (by rw [(ih _ _ _).1]; omega)]
      exact (ih _ _ _).2.1
    · rw [(ih _ _ _).2.2]
      have harith : call_idx + 1 + fuel = call_idx + (fuel + 1) := by omega
      rw [harith]

/-- C1: for every sequence of model responses in which each response requests
at least one tool, the generation loop of `_handle_tool_execution` issues
exactly `MAX_TOOL_ROUNDS + 1` model-service calls (so at most that many),
terminates (the embedded loop is a total function), its final call carries no
`"tools"` key, and the text of that final call's response is returned. The
call list below also contains, before the loop's calls, the initial call
issued by `generate_response` itself. -/
theorem C1_round_bounding (g : AIGenerator) (service : Nat → ModelResponse)
    (execute_tool : ExecuteTool) (query : String) (hist : Option String)
    (tds : List ToolDef)
    (hall : ∀ i, (service i).stop_reason = "tool_use" ∧
      ∃ b ∈ (service i).content, ∃ tb, b = ContentBlock.tool_use tb) :
    ((g.generate_response service query hist (some tds)
        (some execute_tool)).1.drop 1).length = MAX_TOOL_ROUNDS + 1 ∧
    ((g.generate_response service query hist (some tds)
        (some execute_tool)).1.getLast?).map ApiParams.tools = some none ∧
    (g.generate_response service query hist (some tds)
        (some execute_tool)).2 =
      .ok (extract_text_response
        (service (MAX_TOOL_ROUNDS + 1)).content) := by
  have hstop : ∀ i, (service i).stop_reason = "tool_use" :=
    fun i => (hall i).1
  have hloop := toolLoop_all_tool_use g service execute_tool
  simp only [AIGenerator.generate_response, AIGenerator.handle_tool_execution,
    hstop 0, beq_self_eq_true, if_true, List.drop_succ_cons, List.drop_zero]
  refine ⟨?_, ?_, ?_⟩
  · exact (hloop _ _ (hstop) _ _ _ _).1
  · rw [getLast?_cons_of_length_pos _ _
      (by rw [(hloop _ _ (hstop) _ _ _ _).1]; omega)]
    exact (hloop _ _ (hstop) _ _ _ _).2.1
  · rw [(hloop _ _ (hstop) _ _ _ _).2.2]
    have harith : 1 + MAX_TOOL_ROUNDS = MAX_TOOL_ROUNDS + 1 := by omega
    rw [harith]

theorem C1_round_bounding_witness :
    (((AIGenerator.mk "claude-sonnet").generate_response constToolService
        "What is MCP?" none (some [⟨some "search_course_content", "schema"⟩])
        (some (fun _ _ => .ok "no results"))).1.drop 1).length =
      MAX_TOOL_ROUNDS + 1 ∧
    (((AIGenerator.mk "claude-sonnet").generate_response constToolService
        "What is MCP?" none (some [⟨some "search_course_content", "schema"⟩])
        (some (fun _ _ => .ok "no results"))).1.getLast?).map ApiParams.tools =
      some none ∧
    ((AIGenerator.mk "claude-sonnet").generate_response constToolService
        "What is MCP?" none (some [⟨some "search_course_content", "schema"⟩])
        (some (fun _ _ => .ok "no results"))).2 =
      .ok (extract_text_response
        (constToolService (MAX_TOOL_ROUNDS + 1)).content) :=
  C1_round_bounding (AIGenerator.mk "claude-sonnet") constToolService
    (fun _ _ => .ok "no results") "What is MCP?" none
    [⟨some "search_course_content", "schema"⟩]
    (fun _ => ⟨rfl, ⟨_, List.mem_cons_self _ _, ⟨_, rfl⟩⟩⟩)

/-- C2 is false as stated: a well-formed model response whose content holds
no text block does raise on the direct return path. With `stop_reason`
`"end_turn"` and an empty content list, `generate_response` evaluates
`response.content[0].text` and raises `IndexError` instead of returning a
string — the defensive first-text-block scan is used only by the tool-loop
path. -/
theorem C2_counterexample :
    ((AIGenerator.mk "claude-sonnet").generate_response
        (fun _ => ⟨"end_turn", []⟩) "q" none none none).2 =
      .error (.indexError "list index out of range") := rfl

/-- C2 amended: `_extract_text_response` scans the content blocks and returns
the first textual block, or `""` when none exists, never raising; the
tool-loop path of `generate_response` therefore always returns a string; the
direct (no tool use) return path returns a string provided the response's
first content block is a textual block (with an empty or tool-use-first
content list it raises instead, as the counterexample shows). -/
theorem C2_amended_extraction_total :
    (∀ bs : List ContentBlock,
      extract_text_response bs = (specFirstText bs).getD "") ∧
    (∀ (g : AIGenerator) (service : Nat → ModelResponse)
       (execute_tool : ExecuteTool) (query : String) (hist : Option String)
       (tools : Option (List ToolDef)),
      (service 0).stop_reason = "tool_use" →
      ((g.generate_response service query hist tools
        (some execute_tool)).2).isOk = true) ∧
    (∀ (g : AIGenerator) (service : Nat → ModelResponse)
       (tool_manager : Option ExecuteTool) (query : String)
       (hist : Option String) (tools : Option (List ToolDef)) (t : String)
       (rest : List ContentBlock),
      (service 0).content = ContentBlock.text t :: rest →
      ((g.generate_response service query hist tools
        tool_manager).2).isOk = true) := by
  refine ⟨?_, ?_, ?_⟩
  · intro bs
    induction bs with
    | nil => rfl
    | cons b rest ih =>
      cases b with
      | text t => simp [extract_text_response, specFirstText]
      | tool_use tb =>
        simpa [extract_text_response, specFirstText] using ih
  · intro g service execute_tool query hist tools h
    simp [AIGenerator.generate_response, h, Except.isOk, Except.toBool]
  · intro g service tool_manager query hist tools t rest hcontent
    cases tool_manager with
    | none =>
      simp [AIGenerator.generate_response, directReturn, hcontent, Except.isOk, Except.toBool]
    | some execute_tool =>
      by_cases hs : ((service 0).stop_reason == "tool_use") = true
      · simp [AIGenerator.generate_response, hs, Except.isOk, Except.toBool]
      · simp [AIGenerator.generate_response, hs, directReturn, hcontent,
          Except.isOk, Except.toBool]

theorem C2_amended_extraction_total_witness :
    ((AIGenerator.mk "claude-sonnet").generate_response constToolService
        "q" none none (some (fun _ _ => .ok "found"))).2.isOk = true :=
  C2_amended_extraction_total.2.1 (AIGenerator.mk "claude-sonnet")
    constToolService (fun _ _ => .ok "found") "q" none none rfl

/-- C5: with two tool-call blocks in one round, the first raising and the
second succeeding, the single combined tool-result user message (the last
message of the following model call's request) holds both results in
emission order, the first result's text carries the literal prefix
`"Tool execution failed:"`, and neither the round nor the query aborts —
generation still returns a string. -/
theorem C5_tool_fault_isolation (g : AIGenerator)
    (service : Nat → ModelResponse) (execute_tool : ExecuteTool)
    (query : String) (hist : Option String) (tools : Option (List ToolDef))
    (id1 n1 id2 n2 : String) (a1 a2 : List (String × String))
    (emsg s2 : String)
    (h0 : service 0 = ⟨"tool_use",
      [.tool_use ⟨id1, n1, a1⟩, .tool_use ⟨id2, n2, a2⟩]⟩)
    (he1 : execute_tool n1 a1 = .error emsg)
    (he2 : execute_tool n2 a2 = .ok s2) :
    ((g.generate_response service query hist tools
        (some execute_tool)).1.get? 1).map (fun p => p.messages.getLast?) =
      some (some ⟨"user", .tool_results
        [⟨id1, "Tool execution failed: " ++ emsg⟩, ⟨id2, s2⟩]⟩) ∧
    strStartsWith ("Tool execution failed: " ++ emsg)
      "Tool execution failed:" = true ∧
    ((g.generate_response service query hist tools
        (some execute_tool)).2).isOk = true := by
  refine ⟨?_, ?_, ?_⟩
  · simp only [AIGenerator.generate_response, AIGenerator.handle_tool_execution,
      h0, MAX_TOOL_ROUNDS]
    rw [show (2 : Nat) = 1 + 1 from rfl]
    simp only [toolLoop, buildToolResults, List.filterMap_cons, he1, he2]
    by_cases hc : ((service 1).stop_reason != "tool_use") = true
    · simp [hc]
    · simp only [Bool.not_eq_true] at hc
      simp [hc]
  · unfold strStartsWith
    rw [String.data_append, List.isPrefixOf_iff_prefix]
    have h1 : "Tool execution failed:".data <+:
        "Tool execution failed: ".data := by decide
    exact h1.trans (List.prefix_append _ _)
  · simp [AIGenerator.generate_response, h0, Except.isOk, Except.toBool]

theorem C5_tool_fault_isolation_witness :
    (((AIGenerator.mk "claude-sonnet").generate_response
        (fun i => if i = 0 then
          ⟨"tool_use", [.tool_use ⟨"toolu_1", "bad_tool", []⟩,
            .tool_use ⟨"toolu_2", "good_tool", []⟩]⟩
          else ⟨"end_turn", [.text "done"]⟩) "q" none none
        (some (fun nm _ => if nm = "bad_tool" then .error "boom"
          else .ok "fine"))).1.get? 1).map
        (fun p => p.messages.getLast?) =
      some (some ⟨"user", .tool_results
        [⟨"toolu_1", "Tool execution failed: " ++ "boom"⟩,
         ⟨"toolu_2", "fine"⟩]⟩) ∧
    strStartsWith ("Tool execution failed: " ++ "boom")
      "Tool execution failed:" = true ∧
    (((AIGenerator.mk "claude-sonnet").generate_response
        (fun i => if i = 0 then
          ⟨"tool_use", [.tool_use ⟨"toolu_1", "bad_tool", []⟩,
            .tool_use ⟨"toolu_2", "good_tool", []⟩]⟩
          else ⟨"end_turn", [.text "done"]⟩) "q" none none
        (some (fun nm _ => if nm = "bad_tool" then .error "boom"
          else .ok "fine"))).2).isOk = true :=
  C5_tool_fault_isolation (AIGenerator.mk "claude-sonnet") _ _ "q" none none
    "toolu_1" "bad_tool" "toolu_2" "good_tool" [] [] "boom" "fine"
    rfl rfl rfl

end Rag
